import Mathlib

/-!
Verification of the atlas-swap settlement core against its specification.

The development shallowly embeds the Rust sources of the repository:

* `src/atlas-swap/program/src/curve/fees.rs` — fee computation and fee
  schedule validation (`calculate_fee`, `Fees::validate`);
* `src/atlas-swap/program/src/constraints.rs` — deployment admission
  constraints (`SwapConstraints::validate_fees`, `MINIMUM_FEES`,
  `MIN_LP_SUPPLY`);
* `src/atlas-swap/program/src/processor.rs` — the operation processor
  (`process_set_global_state`, and the post-account-validation cores of
  `process_swap`, `process_deposit_all_token_types`,
  `process_withdraw_all_token_types`).

Machine integers are embedded as `Nat` with explicit bounds: `u128`
checked arithmetic becomes `Option Nat` guarded by `2 ^ 128`, and the
`to_u64` narrowing becomes an `Option Nat` guarded by `2 ^ 64`.  Public
keys are abstract identities compared only for equality, embedded as
`Nat`.  The concrete pricing curves and the record wire formats live
outside the repository core (they are external collaborators per the
specification), so curve computations are taken as function parameters
of the processor cores and the freshly-allocated governance record is
modelled from the specification.  The surrounding runtime commits an
operation's writes only on successful completion, so each processor core
returns either an error (nothing committed) or the list of ledger
effects issued, in order.
-/

/-- Public keys are abstract identities: only equality on them is ever
used by the embedded code, so they are represented as naturals. -/
abbrev Pubkey : Type := Nat

/-- Decidable equality on fallible results, so that concrete runs of
the embedded operations can be checked by evaluation. -/
instance {ε α : Type} [DecidableEq ε] [DecidableEq α] : DecidableEq (Except ε α) :=
  fun a b =>
  match a, b with
  | Except.error e1, Except.error e2 =>
    if h : e1 = e2 then Decidable.isTrue (h ▸ rfl)
    else Decidable.isFalse (fun hc => h (Except.error.inj hc))
  | Except.error _, Except.ok _ => Decidable.isFalse (fun hc => Except.noConfusion hc)
  | Except.ok _, Except.error _ => Decidable.isFalse (fun hc => Except.noConfusion hc)
  | Except.ok a1, Except.ok a2 =>
    if h : a1 = a2 then Decidable.isTrue (h ▸ rfl)
    else Decidable.isFalse (fun hc => h (Except.ok.inj hc))

/-- The error type of the program, from `error.rs` via `processor.rs`;
only the variants reachable from the embedded code are carried. -/
inductive SwapError where
  | InvalidProgramAddress
  | InvalidSigner
  | InvalidSystemProgramId
  | InvalidRentSysvarId
  | InvalidProgramOwner
  | InvalidFee
  | ZeroTradingTokens
  | ExceededSlippage
  | ConversionFailure
  | CalculationFailure
  | NotInitializedState
  | UnsupportedCurveOperation
  deriving Repr, DecidableEq

/-- `Fees` from `curve/fees.rs`: four `u64` numerators and one `u64`
denominator. -/
structure Fees where
  constant_product_return_fee_numerator : Nat
  constant_product_fixed_fee_numerator : Nat
  stable_return_fee_numerator : Nat
  stable_fixed_fee_numerator : Nat
  fee_denominator : Nat
  deriving Repr, DecidableEq

/-- `u128::checked_mul`: the product, unless it overflows 128 bits. -/
def checked_mul_u128 (a b : Nat) : Option Nat :=
  if a * b < 2 ^ 128 then some (a * b) else none

/-- `u128::checked_div`: flooring division, failing on a zero divisor. -/
def checked_div_u128 (a b : Nat) : Option Nat :=
  if b = 0 then none else some (a / b)

/-- `u128::checked_sub`: the difference, unless it underflows. -/
def checked_sub_u128 (a b : Nat) : Option Nat :=
  if b ≤ a then some (a - b) else none

/-- `to_u64` from `processor.rs`: narrow a `u128` value to `u64`,
failing when it does not fit. -/
def to_u64 (v : Nat) : Option Nat :=
  if v < 2 ^ 64 then some v else none

/-- `calculate_fee` from `curve/fees.rs` lines 37-54. -/
def calculate_fee (token_amount fee_numerator fee_denominator : Nat) : Option Nat :=
  if fee_numerator = 0 ∨ token_amount = 0 then
    some 0
  else
    match checked_mul_u128 token_amount fee_numerator with
    | none => none
    | some p =>
      match checked_div_u128 p fee_denominator with
      | none => none
      | some fee => if fee = 0 then some 1 else some fee

/-- `Fees::validate` from `curve/fees.rs` lines 110-130.  Note that in
the source the subtractions `fee_denominator - return_numerator` are
only reached (by short-circuit evaluation) after the corresponding
`return_numerator >= fee_denominator` disjunct has failed, so truncated
`Nat` subtraction agrees with the `u64` subtraction there. -/
def Fees.validate (f : Fees) : Except SwapError Unit :=
  if f.fee_denominator = 0 ∧
     f.constant_product_fixed_fee_numerator = 0 ∧
     f.stable_fixed_fee_numerator = 0 ∧
     f.constant_product_return_fee_numerator = 0 ∧
     f.stable_return_fee_numerator = 0 then
    Except.ok ()
  else if f.constant_product_fixed_fee_numerator ≥ f.fee_denominator ∨
          f.stable_fixed_fee_numerator ≥ f.fee_denominator ∨
          f.constant_product_return_fee_numerator ≥ f.fee_denominator ∨
          f.stable_return_fee_numerator ≥ f.fee_denominator ∨
          f.constant_product_fixed_fee_numerator ≥
            f.fee_denominator - f.constant_product_return_fee_numerator ∨
          f.stable_fixed_fee_numerator ≥
            f.fee_denominator - f.stable_return_fee_numerator then
    Except.error SwapError.InvalidFee
  else
    Except.ok ()

/-- `CurveType` from `curve/base.rs` as used by `constraints.rs`. -/
inductive CurveType where
  | ConstantProduct
  | Stable
  deriving Repr, DecidableEq

/-- `SwapConstraints` from `constraints.rs`. -/
structure SwapConstraints where
  valid_curve_types : List CurveType
  fees : Fees

/-- `SwapConstraints::validate_fees` from `constraints.rs` lines 51-64. -/
def SwapConstraints.validate_fees (c : SwapConstraints) (fees : Fees) :
    Except SwapError Unit :=
  if fees.constant_product_return_fee_numerator ≥ c.fees.constant_product_return_fee_numerator ∧
     fees.constant_product_fixed_fee_numerator ≥ c.fees.constant_product_fixed_fee_numerator ∧
     fees.stable_return_fee_numerator ≥ c.fees.stable_return_fee_numerator ∧
     fees.stable_fixed_fee_numerator ≥ c.fees.stable_fixed_fee_numerator ∧
     fees.fee_denominator = c.fees.fee_denominator then
    Except.ok ()
  else
    Except.error SwapError.InvalidFee

/-- `MINIMUM_FEES` from `constraints.rs` lines 13-19. -/
def MINIMUM_FEES : Fees :=
  { constant_product_return_fee_numerator := 0
    constant_product_fixed_fee_numerator := 0
    stable_return_fee_numerator := 0
    stable_fixed_fee_numerator := 0
    fee_denominator := 10000 }

/-- `VALID_CURVE_TYPES` from `constraints.rs` line 20. -/
def VALID_CURVE_TYPES : List CurveType := [CurveType.Stable, CurveType.ConstantProduct]

/-- `SWAP_CONSTRAINTS` from `constraints.rs` lines 83-86. -/
def SWAP_CONSTRAINTS : SwapConstraints :=
  { valid_curve_types := VALID_CURVE_TYPES, fees := MINIMUM_FEES }

/-- `MIN_LP_SUPPLY` from `constraints.rs` line 89. -/
def MIN_LP_SUPPLY : Nat := 100000

/-- The well-known system program identity (`SYSTEM_PROGRAM_ID` in
`constraints.rs`), as an abstract key. -/
def SYSTEM_PROGRAM_ID_KEY : Pubkey := 1

/-- The well-known rent sysvar identity (`RENT_SYSVAR_ID` in
`constraints.rs`), as an abstract key. -/
def RENT_SYSVAR_ID_KEY : Pubkey := 2

/-- The hard-coded bootstrap principal (`INITIAL_PROGRAM_OWNER` in
`constraints.rs`), as an abstract key. -/
def INITIAL_PROGRAM_OWNER_KEY : Pubkey := 3

/-- `GlobalState` from `state.rs` as read and written by
`process_set_global_state`: initialized flag, initial pool-share supply,
pool-share decimal precision, owner, fee owner, fee schedule. -/
structure GlobalState where
  is_initialized : Bool
  initial_supply : Nat
  lp_decimals : Nat
  owner : Pubkey
  fee_owner : Pubkey
  fees : Fees
  deriving Repr, DecidableEq

/-- Modelled from the spec: the packing code of `state.rs` is not under
`src/`.  Unpacking the freshly allocated, zero-filled governance record
yields a record whose initialized flag is false with zeroed fields (the
record is "created lazily on first governance update call" and "an
uninitialized record implicitly defaults its owner to a hard-coded
bootstrap principal"). -/
def GlobalState.fresh : GlobalState :=
  { is_initialized := false
    initial_supply := 0
    lp_decimals := 0
    owner := 0
    fee_owner := 0
    fees := { constant_product_return_fee_numerator := 0
              constant_product_fixed_fee_numerator := 0
              stable_return_fee_numerator := 0
              stable_fixed_fee_numerator := 0
              fee_denominator := 0 } }

/-- The account environment observed by `process_set_global_state`:
the supplied governance account key, the address actually derived from
the fixed tag and the program identity, the caller account (key and
signer flag), the supplied system and rent account keys, and the stored
record (`none` when the account data is still empty/unallocated). -/
structure SetGlobalStateEnv where
  global_state_key : Pubkey
  derived_state_key : Pubkey
  current_owner_key : Pubkey
  current_owner_is_signer : Bool
  system_key : Pubkey
  rent_key : Pubkey
  stored : Option GlobalState
  deriving Repr, DecidableEq

/-- The bootstrap-adoption step of `process_set_global_state`
(`processor.rs` lines 322-325): an uninitialized record has its owner
overwritten with the hard-coded bootstrap principal before the owner
check runs. -/
def adoptBootstrap (g : GlobalState) : GlobalState :=
  if g.is_initialized = false then
    { g with owner := INITIAL_PROGRAM_OWNER_KEY }
  else
    g

/-- `process_set_global_state` from `processor.rs` lines 259-349: PDA
check, signer check, system and rent identity checks, lazy allocation of
an empty record, bootstrap-owner adoption for an uninitialized record,
owner check, admission and structural fee validation, then the packed
record that the successful call persists. -/
def process_set_global_state (env : SetGlobalStateEnv) (owner fee_owner : Pubkey)
    (initial_supply lp_decimals : Nat) (fees : Fees) : Except SwapError GlobalState :=
  if env.global_state_key ≠ env.derived_state_key then
    Except.error SwapError.InvalidProgramAddress
  else if env.current_owner_is_signer = false then
    Except.error SwapError.InvalidSigner
  else if env.system_key ≠ SYSTEM_PROGRAM_ID_KEY then
    Except.error SwapError.InvalidSystemProgramId
  else if env.rent_key ≠ RENT_SYSVAR_ID_KEY then
    Except.error SwapError.InvalidRentSysvarId
  else if (adoptBootstrap (env.stored.getD GlobalState.fresh)).owner ≠
          env.current_owner_key then
    Except.error SwapError.InvalidProgramOwner
  else
    match SWAP_CONSTRAINTS.validate_fees fees with
      | Except.error e => Except.error e
      | Except.ok _ =>
        match fees.validate with
        | Except.error e => Except.error e
        | Except.ok _ =>
          Except.ok { is_initialized := true
                      initial_supply := initial_supply
                      lp_decimals := lp_decimals
                      owner := owner
                      fee_owner := fee_owner
                      fees := fees }

/-- The record visible after a `SetGlobalState` call: the surrounding
runtime commits writes (including the on-demand storage allocation) only
when the whole operation succeeds, so a failing call leaves the prior
record — or its absence — in place. -/
def run_set_global_state (env : SetGlobalStateEnv) (owner fee_owner : Pubkey)
    (initial_supply lp_decimals : Nat) (fees : Fees) : Option GlobalState :=
  match process_set_global_state env owner fee_owner initial_supply lp_decimals fees with
  | Except.ok g => some g
  | Except.error _ => env.stored

/-- The owner a `SetGlobalState` caller is compared against: the stored
owner when the record is initialized, the bootstrap principal otherwise
(also when the record does not exist yet). -/
def currentOwnerOf (stored : Option GlobalState) : Pubkey :=
  if (stored.getD GlobalState.fresh).is_initialized then
    (stored.getD GlobalState.fresh).owner
  else
    INITIAL_PROGRAM_OWNER_KEY

/-- `TradeDirection` from `curve/calculator.rs` as used by the swap
processor. -/
inductive TradeDirection where
  | AtoB
  | BtoA
  deriving Repr, DecidableEq

/-- `RoundDirection` from `curve/calculator.rs` as used by the deposit
and withdraw processors. -/
inductive RoundDirection where
  | Floor
  | Ceiling
  deriving Repr, DecidableEq

/-- `SwapResult` produced by a curve's `swap`: gross input consumed,
output delivered, and the owner-fee portion of the input. -/
structure SwapResult where
  source_amount_swapped : Nat
  destination_amount_swapped : Nat
  owner_fee : Nat
  deriving Repr, DecidableEq

/-- The two proportional underlying amounts produced by a curve's
`pool_tokens_to_trading_tokens`. -/
structure TradingTokenResult where
  token_a_amount : Nat
  token_b_amount : Nat
  deriving Repr, DecidableEq

/-- A balance-changing ledger effect issued by the processor through the
external ledger collaborator. -/
inductive Effect where
  | transfer (source destination : Pubkey) (amount : Nat)
  | mintTo (mint destination : Pubkey) (amount : Nat)
  | burn (source mint : Pubkey) (amount : Nat)
  deriving Repr, DecidableEq

/-- A curve's `swap` quote, abstract over the concrete pricing formula:
arguments are amount in, source reserve, destination reserve, trade
direction and the fee schedule. -/
abbrev CurveSwap : Type :=
  Nat → Nat → Nat → TradeDirection → Fees → Option SwapResult

/-- A curve's `pool_tokens_to_trading_tokens` conversion, abstract over
the concrete formula: arguments are pool-token amount, pool-share
supply, the two reserve balances and the rounding direction. -/
abbrev CurveConvert : Type :=
  Nat → Nat → Nat → Nat → RoundDirection → Option TradingTokenResult

/-- Outcome of the swap core: committed effects on success, a program
error, or the abort of the unchecked 128-bit subtraction
`source_amount_swapped - owner_fee` on underflow. -/
inductive SwapOutcome where
  | ok (effects : List Effect)
  | fail (e : SwapError)
  | underflowAbort
  deriving Repr, DecidableEq

/-- The caller- and pool-account keys used by the swap core's effects. -/
structure SwapAccounts where
  source_key : Pubkey
  swap_source_key : Pubkey
  swap_destination_key : Pubkey
  destination_key : Pubkey
  fixed_fee_account_key : Pubkey
  deriving Repr, DecidableEq

/-- The core of `process_swap` from `processor.rs` lines 571-618, after
the account-shape validation: invoke the curve, map an absent result to
the zero-trading-tokens error, enforce the caller's minimum output,
compute the net input by the source's unchecked `u128` subtraction, and
issue the three transfers in order. -/
def swap_core (curve : CurveSwap) (fees : Fees) (dir : TradeDirection)
    (amount_in minimum_amount_out : Nat) (source_reserve dest_reserve : Nat)
    (acc : SwapAccounts) : SwapOutcome :=
  match curve amount_in source_reserve dest_reserve dir fees with
  | none => SwapOutcome.fail SwapError.ZeroTradingTokens
  | some result =>
    if result.destination_amount_swapped < minimum_amount_out then
      SwapOutcome.fail SwapError.ExceededSlippage
    else if result.source_amount_swapped < result.owner_fee then
      SwapOutcome.underflowAbort
    else
      match to_u64 (result.source_amount_swapped - result.owner_fee),
            to_u64 result.owner_fee,
            to_u64 result.destination_amount_swapped with
      | some a1, some a2, some a3 =>
        SwapOutcome.ok
          [Effect.transfer acc.source_key acc.swap_source_key a1,
           Effect.transfer acc.source_key acc.fixed_fee_account_key a2,
           Effect.transfer acc.swap_destination_key acc.destination_key a3]
      | _, _, _ => SwapOutcome.fail SwapError.ConversionFailure

/-- The account keys used by the deposit core's effects. -/
structure DepositAccounts where
  source_a_key : Pubkey
  source_b_key : Pubkey
  token_a_key : Pubkey
  token_b_key : Pubkey
  pool_mint_key : Pubkey
  dest_key : Pubkey
  deriving Repr, DecidableEq

/-- The core of `process_deposit_all_token_types` from `processor.rs`
lines 671-731, after the account-shape validation: choose the
pool-token amount and basis supply (substituting the configured initial
supply when the mint supply is zero), convert with ceiling rounding,
enforce the per-side slippage and nonzero checks, then issue the two
transfers and the mint. -/
def deposit_core (calculator : CurveConvert)
    (pool_token_amount maximum_token_a_amount maximum_token_b_amount : Nat)
    (pool_mint_supply initial_supply : Nat) (token_a_balance token_b_balance : Nat)
    (acc : DepositAccounts) : Except SwapError (List Effect) :=
  let pta := if 0 < pool_mint_supply then pool_token_amount else initial_supply
  let basis := if 0 < pool_mint_supply then pool_mint_supply else initial_supply
  match calculator pta basis token_a_balance token_b_balance RoundDirection.Ceiling with
  | none => Except.error SwapError.ZeroTradingTokens
  | some results =>
    match to_u64 results.token_a_amount with
    | none => Except.error SwapError.ConversionFailure
    | some token_a_amount =>
      if token_a_amount > maximum_token_a_amount then
        Except.error SwapError.ExceededSlippage
      else if token_a_amount = 0 then
        Except.error SwapError.ZeroTradingTokens
      else
        match to_u64 results.token_b_amount with
        | none => Except.error SwapError.ConversionFailure
        | some token_b_amount =>
          if token_b_amount > maximum_token_b_amount then
            Except.error SwapError.ExceededSlippage
          else if token_b_amount = 0 then
            Except.error SwapError.ZeroTradingTokens
          else
            match to_u64 pta with
            | none => Except.error SwapError.ConversionFailure
            | some mint_amount =>
              Except.ok
                [Effect.transfer acc.source_a_key acc.token_a_key token_a_amount,
                 Effect.transfer acc.source_b_key acc.token_b_key token_b_amount,
                 Effect.mintTo acc.pool_mint_key acc.dest_key mint_amount]

/-- The account keys used by the withdraw core's effects. -/
structure WithdrawAccounts where
  source_key : Pubkey
  pool_mint_key : Pubkey
  token_a_key : Pubkey
  token_b_key : Pubkey
  dest_token_a_key : Pubkey
  dest_token_b_key : Pubkey
  deriving Repr, DecidableEq

/-- The core of `process_withdraw_all_token_types` from `processor.rs`
lines 786-850, after the account-shape validation: cap the requested
pool-token amount at supply minus the minimum pool-share floor (failing
when the supply is already below the floor), convert with floor
rounding, cap each side at the reserve balance, enforce the per-side
slippage and no-op checks, then burn and issue the nonzero transfers. -/
def withdraw_core (calculator : CurveConvert)
    (pool_token_amount minimum_token_a_amount minimum_token_b_amount : Nat)
    (pool_mint_supply : Nat) (token_a_balance token_b_balance : Nat)
    (acc : WithdrawAccounts) : Except SwapError (List Effect) :=
  match checked_sub_u128 pool_mint_supply MIN_LP_SUPPLY with
  | none => Except.error SwapError.CalculationFailure
  | some max_pool_token_amount =>
    let pta := min pool_token_amount max_pool_token_amount
    match calculator pta pool_mint_supply token_a_balance token_b_balance RoundDirection.Floor with
    | none => Except.error SwapError.ZeroTradingTokens
    | some results =>
      match to_u64 results.token_a_amount with
      | none => Except.error SwapError.ConversionFailure
      | some ta =>
        let token_a_amount := min token_a_balance ta
        if token_a_amount < minimum_token_a_amount then
          Except.error SwapError.ExceededSlippage
        else if token_a_amount = 0 ∧ token_a_balance ≠ 0 then
          Except.error SwapError.ZeroTradingTokens
        else
          match to_u64 results.token_b_amount with
          | none => Except.error SwapError.ConversionFailure
          | some tb =>
            let token_b_amount := min token_b_balance tb
            if token_b_amount < minimum_token_b_amount then
              Except.error SwapError.ExceededSlippage
            else if token_b_amount = 0 ∧ token_b_balance ≠ 0 then
              Except.error SwapError.ZeroTradingTokens
            else
              match to_u64 pta with
              | none => Except.error SwapError.ConversionFailure
              | some burn_amount =>
                Except.ok
                  (Effect.burn acc.source_key acc.pool_mint_key burn_amount ::
                   ((if 0 < token_a_amount then
                       [Effect.transfer acc.token_a_key acc.dest_token_a_key token_a_amount]
                     else []) ++
                    (if 0 < token_b_amount then
                       [Effect.transfer acc.token_b_key acc.dest_token_b_key token_b_amount]
                     else [])))

/-- C5: `calculate_fee` returns 0 when the numerator or the amount is
zero; otherwise any returned value is `floor(amount * numerator /
denominator)` promoted to 1 when that floor is 0 (hence at least 1 for
positive amount and numerator), and it returns no value exactly when the
widened multiplication overflows or the division has a zero divisor. -/
theorem calculate_fee_spec (a n d : Nat) :
    ((n = 0 ∨ a = 0) → calculate_fee a n d = some 0) ∧
    (∀ v, calculate_fee a n d = some v → n ≠ 0 → a ≠ 0 →
      v = if a * n / d = 0 then 1 else a * n / d) ∧
    (0 < a → 0 < n → ∀ v, calculate_fee a n d = some v → 1 ≤ v) ∧
    (calculate_fee a n d = none ↔ n ≠ 0 ∧ a ≠ 0 ∧ (2 ^ 128 ≤ a * n ∨ d = 0)) := by
  by_cases h0 : n = 0 ∨ a = 0
  · have hres : calculate_fee a n d = some 0 := by
      unfold calculate_fee
      rw [if_pos h0]
    refine ⟨fun _ => hres, ?_, ?_, ?_⟩
    · intro v hv hn ha
      rcases h0 with h | h
      · exact absurd h hn
      · exact absurd h ha
    · intro ha hn v hv
      rcases h0 with h | h
      · omega
      · omega
    · rw [hres]
      constructor
      · intro h
        cases h
      · rintro ⟨hn, ha, _⟩
        rcases h0 with h | h
        · exact absurd h hn
        · exact absurd h ha
  · have hn : n ≠ 0 := fun h => h0 (Or.inl h)
    have ha : a ≠ 0 := fun h => h0 (Or.inr h)
    by_cases hm : a * n < 2 ^ 128
    · by_cases hd : d = 0
      · have hres : calculate_fee a n d = none := by
          unfold calculate_fee checked_mul_u128 checked_div_u128
          rw [if_neg h0, if_pos hm]
          simp [hd]
        refine ⟨fun h => absurd h h0, ?_, ?_, ?_⟩
        · intro v hv
          rw [hres] at hv
          cases hv
        · intro _ _ v hv
          rw [hres] at hv
          cases hv
        · rw [hres]
          exact ⟨fun _ => ⟨hn, ha, Or.inr hd⟩, fun _ => rfl⟩
      · have hres : calculate_fee a n d =
            (if a * n / d = 0 then some 1 else some (a * n / d)) := by
          unfold calculate_fee checked_mul_u128 checked_div_u128
          rw [if_neg h0, if_pos hm]
          simp [hd]
        refine ⟨fun h => absurd h h0, ?_, ?_, ?_⟩
        · intro v hv _ _
          rw [hres] at hv
          by_cases hz : a * n / d = 0
          · rw [if_pos hz] at hv
            rw [if_pos hz]
            exact (Option.some.injEq _ _ ▸ hv).symm
          · rw [if_neg hz] at hv
            rw [if_neg hz]
            exact (Option.some.injEq _ _ ▸ hv).symm
        · intro _ _ v hv
          rw [hres] at hv
          by_cases hz : a * n / d = 0
          · rw [if_pos hz] at hv
            have : v = 1 := (Option.some.injEq _ _ ▸ hv).symm
            omega
          · rw [if_neg hz] at hv
            have : v = a * n / d := (Option.some.injEq _ _ ▸ hv).symm
            omega
        · rw [hres]
          constructor
          · intro h
            by_cases hz : a * n / d = 0
            · rw [if_pos hz] at h
              cases h
            · rw [if_neg hz] at h
              cases h
          · rintro ⟨_, _, h | h⟩
            · omega
            · exact absurd h hd
    · have hres : calculate_fee a n d = none := by
        unfold calculate_fee checked_mul_u128 checked_div_u128
        rw [if_neg h0, if_neg hm]
      refine ⟨fun h => absurd h h0, ?_, ?_, ?_⟩
      · intro v hv
        rw [hres] at hv
        cases hv
      · intro _ _ v hv
        rw [hres] at hv
        cases hv
      · rw [hres]
        exact ⟨fun _ => ⟨hn, ha, Or.inl (by omega)⟩, fun _ => rfl⟩

/-- Witness for C5: at amount 1, numerator 1, denominator 1 the fee is
the promoted minimum of 1, which is at least 1. -/
theorem calculate_fee_spec_witness :
    calculate_fee 1 1 1 = some 1 ∧ 1 ≤ 1 :=
  ⟨rfl, (calculate_fee_spec 1 1 1).2.2.1 (by decide) (by decide) 1 rfl⟩

/-- C6: `Fees.validate` accepts exactly the fully-zero schedules and the
schedules in which every numerator is strictly below the denominator and
each family's fixed numerator is strictly below the denominator minus
that family's return numerator; every other schedule gets the
invalid-fee error; the canonical all-zero schedule is accepted. -/
theorem fees_validate_spec (f : Fees) :
    (f.validate = Except.ok () ↔
      (f.constant_product_return_fee_numerator = 0 ∧
       f.constant_product_fixed_fee_numerator = 0 ∧
       f.stable_return_fee_numerator = 0 ∧
       f.stable_fixed_fee_numerator = 0 ∧
       f.fee_denominator = 0) ∨
      (f.constant_product_return_fee_numerator < f.fee_denominator ∧
       f.constant_product_fixed_fee_numerator < f.fee_denominator ∧
       f.stable_return_fee_numerator < f.fee_denominator ∧
       f.stable_fixed_fee_numerator < f.fee_denominator ∧
       f.constant_product_fixed_fee_numerator <
         f.fee_denominator - f.constant_product_return_fee_numerator ∧
       f.stable_fixed_fee_numerator <
         f.fee_denominator - f.stable_return_fee_numerator)) ∧
    (f.validate ≠ Except.ok () → f.validate = Except.error SwapError.InvalidFee) ∧
    Fees.validate
      { constant_product_return_fee_numerator := 0
        constant_product_fixed_fee_numerator := 0
        stable_return_fee_numerator := 0
        stable_fixed_fee_numerator := 0
        fee_denominator := 0 } = Except.ok () := by
  refine ⟨?_, ?_, rfl⟩
  · unfold Fees.validate
    split_ifs with h1 h2
    · simp only [true_iff]
      omega
    · constructor
      · intro h
        cases h
      · intro h
        omega
    · simp only [true_iff]
      omega
  · unfold Fees.validate
    split_ifs with h1 h2
    · intro h
      exact absurd rfl h
    · intro _
      rfl
    · intro h
      exact absurd rfl h

/-- Witness for C6: the deployment floor schedule (denominator 10000,
all numerators zero) is accepted by the structural validation. -/
theorem fees_validate_spec_witness :
    Fees.validate MINIMUM_FEES = Except.ok () :=
  (fees_validate_spec MINIMUM_FEES).1.mpr (Or.inr (by decide))

/-- C8: admission validation of a proposed fee schedule against a
deployment's constraints succeeds exactly when every proposed numerator
is at least the corresponding floor numerator and the proposed
denominator equals the floor denominator, and any violation yields the
invalid-fee error. -/
theorem swap_constraints_validate_fees_spec (c : SwapConstraints) (fees : Fees) :
    (c.validate_fees fees = Except.ok () ↔
      c.fees.constant_product_return_fee_numerator ≤
        fees.constant_product_return_fee_numerator ∧
      c.fees.constant_product_fixed_fee_numerator ≤
        fees.constant_product_fixed_fee_numerator ∧
      c.fees.stable_return_fee_numerator ≤ fees.stable_return_fee_numerator ∧
      c.fees.stable_fixed_fee_numerator ≤ fees.stable_fixed_fee_numerator ∧
      fees.fee_denominator = c.fees.fee_denominator) ∧
    (c.validate_fees fees ≠ Except.ok () →
      c.validate_fees fees = Except.error SwapError.InvalidFee) := by
  unfold SwapConstraints.validate_fees
  split_ifs with h
  · refine ⟨?_, fun hne => absurd rfl hne⟩
    simp only [true_iff]
    exact h
  · refine ⟨?_, fun _ => rfl⟩
    constructor
    · intro hc
      cases hc
    · intro hc
      exact absurd hc h

/-- Witness for C8: the floor schedule itself is admissible against the
deployment constraints. -/
theorem swap_constraints_validate_fees_spec_witness :
    SWAP_CONSTRAINTS.validate_fees MINIMUM_FEES = Except.ok () :=
  (swap_constraints_validate_fees_spec SWAP_CONSTRAINTS MINIMUM_FEES).1.mpr
    (by decide)

/-- Admission validation yields either success or exactly the
invalid-fee error. -/
theorem swap_constraints_validate_fees_cases (c : SwapConstraints) (fees : Fees) :
    c.validate_fees fees = Except.ok () ∨
    c.validate_fees fees = Except.error SwapError.InvalidFee := by
  unfold SwapConstraints.validate_fees
  split_ifs
  · exact Or.inl rfl
  · exact Or.inr rfl

/-- Structural fee validation yields either success or exactly the
invalid-fee error. -/
theorem fees_validate_cases (f : Fees) :
    f.validate = Except.ok () ∨ f.validate = Except.error SwapError.InvalidFee := by
  unfold Fees.validate
  split_ifs
  · exact Or.inl rfl
  · exact Or.inr rfl
  · exact Or.inl rfl

/-- The bootstrap-adoption step compares the caller against the stored
owner when the record is initialized and against the bootstrap principal
otherwise. -/
theorem adoptBootstrap_owner (stored : Option GlobalState) :
    (adoptBootstrap (stored.getD GlobalState.fresh)).owner = currentOwnerOf stored := by
  unfold adoptBootstrap currentOwnerOf
  cases h : (stored.getD GlobalState.fresh).is_initialized <;> simp [h]

/-- A successful `SetGlobalState` call passed every gate: correct
derived address, signer, well-known system and rent identities, caller
equal to the current owner (bootstrap when uninitialized), and both fee
validations. -/
theorem set_global_state_ok_inv (env : SetGlobalStateEnv) (owner fee_owner : Pubkey)
    (initial_supply lp_decimals : Nat) (fees : Fees) (g : GlobalState)
    (h : process_set_global_state env owner fee_owner initial_supply lp_decimals fees =
        Except.ok g) :
    env.global_state_key = env.derived_state_key ∧
    env.current_owner_is_signer = true ∧
    env.system_key = SYSTEM_PROGRAM_ID_KEY ∧
    env.rent_key = RENT_SYSVAR_ID_KEY ∧
    env.current_owner_key = currentOwnerOf env.stored ∧
    SWAP_CONSTRAINTS.validate_fees fees = Except.ok () ∧
    fees.validate = Except.ok () := by
  unfold process_set_global_state at h
  by_cases h1 : env.global_state_key ≠ env.derived_state_key
  · rw [if_pos h1] at h
    cases h
  rw [if_neg h1] at h
  by_cases h2 : env.current_owner_is_signer = false
  · rw [if_pos h2] at h
    cases h
  rw [if_neg h2] at h
  by_cases h3 : env.system_key ≠ SYSTEM_PROGRAM_ID_KEY
  · rw [if_pos h3] at h
    cases h
  rw [if_neg h3] at h
  by_cases h4 : env.rent_key ≠ RENT_SYSVAR_ID_KEY
  · rw [if_pos h4] at h
    cases h
  rw [if_neg h4] at h
  by_cases h5 : (adoptBootstrap (env.stored.getD GlobalState.fresh)).owner ≠
      env.current_owner_key
  · rw [if_pos h5] at h
    cases h
  rw [if_neg h5] at h
  rcases swap_constraints_validate_fees_cases SWAP_CONSTRAINTS fees with hvf | hvf <;>
    rw [hvf] at h
  · rcases fees_validate_cases fees with hv | hv <;> rw [hv] at h
    · refine ⟨not_not.mp h1, by simpa using h2, not_not.mp h3, not_not.mp h4, ?_, hvf, hv⟩
      have howner := not_not.mp h5
      rw [adoptBootstrap_owner] at howner
      exact howner.symm
    · cases h
  · cases h

/-- C1: under the address, signer and well-known-identity
preconditions, a `SetGlobalState` call fails with the
invalid-program-owner error exactly when the signing caller differs
from the current owner, where an uninitialized (or absent) record has
first adopted the hard-coded bootstrap principal as its owner before
the comparison. -/
theorem set_global_state_owner_gate (env : SetGlobalStateEnv) (owner fee_owner : Pubkey)
    (initial_supply lp_decimals : Nat) (fees : Fees)
    (hpda : env.global_state_key = env.derived_state_key)
    (hsig : env.current_owner_is_signer = true)
    (hsys : env.system_key = SYSTEM_PROGRAM_ID_KEY)
    (hrent : env.rent_key = RENT_SYSVAR_ID_KEY) :
    (process_set_global_state env owner fee_owner initial_supply lp_decimals fees =
        Except.error SwapError.InvalidProgramOwner) ↔
      env.current_owner_key ≠ currentOwnerOf env.stored := by
  unfold process_set_global_state
  rw [if_neg (by simp [hpda]), if_neg (by simp [hsig]), if_neg (by simp [hsys]),
      if_neg (by simp [hrent])]
  by_cases h5 : (adoptBootstrap (env.stored.getD GlobalState.fresh)).owner ≠
      env.current_owner_key
  · rw [if_pos h5]
    rw [adoptBootstrap_owner] at h5
    exact iff_of_true rfl (Ne.symm h5)
  · rw [if_neg h5]
    have hk := not_not.mp h5
    rw [adoptBootstrap_owner] at hk
    rcases swap_constraints_validate_fees_cases SWAP_CONSTRAINTS fees with hvf | hvf <;>
      rw [hvf]
    · rcases fees_validate_cases fees with hv | hv <;> rw [hv]
      · exact iff_of_false (fun hc => Except.noConfusion hc) (fun hne => hne hk.symm)
      · exact iff_of_false (fun hc => by cases hc) (fun hne => hne hk.symm)
    · exact iff_of_false (fun hc => by cases hc) (fun hne => hne hk.symm)

/-- A concrete environment for exercising the `SetGlobalState` owner
gate: correct derived address and well-known identities, a signing
caller with key 9, and a still-absent governance record. -/
def gateEnv : SetGlobalStateEnv :=
  { global_state_key := 10
    derived_state_key := 10
    current_owner_key := 9
    current_owner_is_signer := true
    system_key := SYSTEM_PROGRAM_ID_KEY
    rent_key := RENT_SYSVAR_ID_KEY
    stored := none }

/-- Witness for C1: with an absent record, a signing caller whose key
differs from the bootstrap principal is rejected with the
invalid-program-owner error. -/
theorem set_global_state_owner_gate_witness :
    process_set_global_state gateEnv 7 8 100000 6 MINIMUM_FEES =
      Except.error SwapError.InvalidProgramOwner :=
  (set_global_state_owner_gate gateEnv 7 8 100000 6 MINIMUM_FEES rfl rfl rfl rfl).mpr
    (by decide)

/-- C4: every failing `SetGlobalState` call — wrong derived address,
non-signing caller, wrong system or rent identity, caller different
from the current owner, or a fee schedule rejected by the admission
constraints or the structural validation — returns an error, and the
committed governance record (or its absence) is exactly the prior one. -/
theorem set_global_state_failure_preserves_record (env : SetGlobalStateEnv)
    (owner fee_owner : Pubkey) (initial_supply lp_decimals : Nat) (fees : Fees)
    (h : env.global_state_key ≠ env.derived_state_key ∨
         env.current_owner_is_signer = false ∨
         env.system_key ≠ SYSTEM_PROGRAM_ID_KEY ∨
         env.rent_key ≠ RENT_SYSVAR_ID_KEY ∨
         env.current_owner_key ≠ currentOwnerOf env.stored ∨
         SWAP_CONSTRAINTS.validate_fees fees ≠ Except.ok () ∨
         fees.validate ≠ Except.ok ()) :
    (∃ e, process_set_global_state env owner fee_owner initial_supply lp_decimals fees =
        Except.error e) ∧
    run_set_global_state env owner fee_owner initial_supply lp_decimals fees =
      env.stored := by
  have herr : ∃ e,
      process_set_global_state env owner fee_owner initial_supply lp_decimals fees =
        Except.error e := by
    cases hp : process_set_global_state env owner fee_owner initial_supply lp_decimals fees with
    | error e => exact ⟨e, rfl⟩
    | ok g =>
      exfalso
      obtain ⟨e1, e2, e3, e4, e5, e6, e7⟩ :=
        set_global_state_ok_inv env owner fee_owner initial_supply lp_decimals fees g hp
      rcases h with hc | hc | hc | hc | hc | hc | hc
      · exact hc e1
      · rw [e2] at hc
        cases hc
      · exact hc e3
      · exact hc e4
      · exact hc e5
      · exact hc e6
      · exact hc e7
  refine ⟨herr, ?_⟩
  obtain ⟨e, he⟩ := herr
  unfold run_set_global_state
  rw [he]

/-- A concrete environment holding an initialized governance record
owned by key 9, for exercising a failing re-run of `SetGlobalState`. -/
def ownedEnv : SetGlobalStateEnv :=
  { global_state_key := 10
    derived_state_key := 10
    current_owner_key := 9
    current_owner_is_signer := true
    system_key := SYSTEM_PROGRAM_ID_KEY
    rent_key := RENT_SYSVAR_ID_KEY
    stored := some { is_initialized := true
                     initial_supply := 100000
                     lp_decimals := 6
                     owner := 9
                     fee_owner := 4
                     fees := MINIMUM_FEES } }

/-- A proposed fee schedule whose denominator differs from the
deployment floor denominator, hence inadmissible. -/
def badDenominatorFees : Fees :=
  { constant_product_return_fee_numerator := 1
    constant_product_fixed_fee_numerator := 1
    stable_return_fee_numerator := 1
    stable_fixed_fee_numerator := 1
    fee_denominator := 5000 }

/-- Witness for C4: re-running `SetGlobalState` by the rightful owner
with an inadmissible fee schedule leaves the stored record exactly as
it was. -/
theorem set_global_state_failure_preserves_record_witness :
    run_set_global_state ownedEnv 7 8 100000 6 badDenominatorFees = ownedEnv.stored :=
  (set_global_state_failure_preserves_record ownedEnv 7 8 100000 6 badDenominatorFees
    (Or.inr (Or.inr (Or.inr (Or.inr (Or.inr (Or.inl (by decide)))))))).2

/-- C3: the swap core maps an absent curve result to the
zero-trading-tokens error, a delivered output strictly below the
caller's minimum to the slippage error, and otherwise issues exactly
three transfers in order: the net input (input minus owner fee) from
the caller to the source reserve, the owner fee from the caller to the
fee-recipient account, and the output from the destination reserve to
the caller. -/
theorem swap_core_spec (curve : CurveSwap) (fees : Fees) (dir : TradeDirection)
    (amount_in minimum_amount_out source_reserve dest_reserve : Nat)
    (acc : SwapAccounts) :
    (curve amount_in source_reserve dest_reserve dir fees = none →
      swap_core curve fees dir amount_in minimum_amount_out source_reserve dest_reserve acc =
        SwapOutcome.fail SwapError.ZeroTradingTokens) ∧
    (∀ r, curve amount_in source_reserve dest_reserve dir fees = some r →
      r.destination_amount_swapped < minimum_amount_out →
      swap_core curve fees dir amount_in minimum_amount_out source_reserve dest_reserve acc =
        SwapOutcome.fail SwapError.ExceededSlippage) ∧
    (∀ r, curve amount_in source_reserve dest_reserve dir fees = some r →
      minimum_amount_out ≤ r.destination_amount_swapped →
      r.owner_fee ≤ r.source_amount_swapped →
      r.source_amount_swapped < 2 ^ 64 →
      r.destination_amount_swapped < 2 ^ 64 →
      swap_core curve fees dir amount_in minimum_amount_out source_reserve dest_reserve acc =
        SwapOutcome.ok
          [Effect.transfer acc.source_key acc.swap_source_key
             (r.source_amount_swapped - r.owner_fee),
           Effect.transfer acc.source_key acc.fixed_fee_account_key r.owner_fee,
           Effect.transfer acc.swap_destination_key acc.destination_key
             r.destination_amount_swapped]) := by
  refine ⟨?_, ?_, ?_⟩
  · intro hn
    unfold swap_core
    rw [hn]
  · intro r hr hlt
    unfold swap_core
    rw [hr]
    dsimp only
    rw [if_pos hlt]
  · intro r hr hmin hfee hsrc hdst
    unfold swap_core
    rw [hr]
    dsimp only
    rw [if_neg (by omega), if_neg (by omega)]
    unfold to_u64
    rw [if_pos (show r.source_amount_swapped - r.owner_fee < 2 ^ 64 by omega),
        if_pos (show r.owner_fee < 2 ^ 64 by omega),
        if_pos (show r.destination_amount_swapped < 2 ^ 64 by omega)]

/-- Witness for C3: a concrete curve result of 100 in, 90 out, owner
fee 1 with minimum output 90 commits the three transfers in order. -/
theorem swap_core_spec_witness :
    swap_core (fun _ _ _ _ _ => some ⟨100, 90, 1⟩) MINIMUM_FEES TradeDirection.AtoB
        100 90 1000 1000 ⟨20, 21, 22, 23, 24⟩ =
      SwapOutcome.ok
        [Effect.transfer 20 21 99, Effect.transfer 20 24 1, Effect.transfer 22 23 90] :=
  (swap_core_spec (fun _ _ _ _ _ => some ⟨100, 90, 1⟩) MINIMUM_FEES TradeDirection.AtoB
    100 90 1000 1000 ⟨20, 21, 22, 23, 24⟩).2.2 ⟨100, 90, 1⟩ rfl (by decide) (by decide)
    (by decide) (by decide)

/-- C9: when every result the curve can return satisfies
`owner_fee ≤ source_amount_swapped`, the unchecked 128-bit subtraction
in the swap core cannot underflow (the abort branch is unreachable);
without that precondition the operation is not total — a curve result
with `owner_fee > source_amount_swapped` reaches the abort. -/
theorem swap_core_no_underflow (curve : CurveSwap) (fees : Fees) (dir : TradeDirection)
    (amount_in minimum_amount_out source_reserve dest_reserve : Nat) (acc : SwapAccounts)
    (hpre : ∀ r, curve amount_in source_reserve dest_reserve dir fees = some r →
      r.owner_fee ≤ r.source_amount_swapped) :
    swap_core curve fees dir amount_in minimum_amount_out source_reserve dest_reserve acc ≠
      SwapOutcome.underflowAbort ∧
    ∃ badCurve : CurveSwap,
      swap_core badCurve fees dir amount_in minimum_amount_out source_reserve dest_reserve
        acc = SwapOutcome.underflowAbort := by
  constructor
  · unfold swap_core
    cases hc : curve amount_in source_reserve dest_reserve dir fees with
    | none =>
      intro hcontra
      cases hcontra
    | some r =>
      have hr := hpre r hc
      dsimp only
      by_cases hlt : r.destination_amount_swapped < minimum_amount_out
      · rw [if_pos hlt]
        intro hcontra
        cases hcontra
      · rw [if_neg hlt, if_neg (by omega)]
        cases h1 : to_u64 (r.source_amount_swapped - r.owner_fee) <;>
          cases h2 : to_u64 r.owner_fee <;>
          cases h3 : to_u64 r.destination_amount_swapped <;>
          intro hcontra <;> cases hcontra
  · refine ⟨fun _ _ _ _ _ => some ⟨0, minimum_amount_out, 1⟩, ?_⟩
    unfold swap_core
    dsimp only
    rw [if_neg (by omega), if_pos (by omega)]

/-- Witness for C9: for a curve whose only result has owner fee 1 on a
gross input of 100, the subtraction abort is unreachable. -/
theorem swap_core_no_underflow_witness :
    swap_core (fun _ _ _ _ _ => some ⟨100, 90, 1⟩) MINIMUM_FEES TradeDirection.BtoA
        100 0 1000 1000 ⟨20, 21, 22, 23, 24⟩ ≠ SwapOutcome.underflowAbort :=
  (swap_core_no_underflow (fun _ _ _ _ _ => some ⟨100, 90, 1⟩) MINIMUM_FEES
    TradeDirection.BtoA 100 0 1000 1000 ⟨20, 21, 22, 23, 24⟩
    (fun r hr => by cases hr; decide)).1

/-- Narrowing a value below the 64-bit bound succeeds with the value
itself. -/
theorem to_u64_lt (v : Nat) (h : v < 2 ^ 64) : to_u64 v = some v := by
  unfold to_u64
  rw [if_pos h]

/-- C7: the deposit core converts the caller-specified pool-token
amount against the current supply when that supply is nonzero and
substitutes the configured initial supply as both the minted amount and
the basis supply when it is zero; conversion uses ceiling rounding; the
call is rejected before any transfer or mint when a computed side is
zero or exceeds the caller's maximum for that side, and otherwise
issues the two reserve transfers followed by the pool-share mint. -/
theorem deposit_core_spec (calculator : CurveConvert)
    (pool_token_amount maximum_token_a_amount maximum_token_b_amount : Nat)
    (pool_mint_supply initial_supply token_a_balance token_b_balance : Nat)
    (acc : DepositAccounts) :
    ∀ res,
      calculator (if 0 < pool_mint_supply then pool_token_amount else initial_supply)
          (if 0 < pool_mint_supply then pool_mint_supply else initial_supply)
          token_a_balance token_b_balance RoundDirection.Ceiling = some res →
      res.token_a_amount < 2 ^ 64 →
      res.token_b_amount < 2 ^ 64 →
      ((maximum_token_a_amount < res.token_a_amount →
        deposit_core calculator pool_token_amount maximum_token_a_amount
            maximum_token_b_amount pool_mint_supply initial_supply token_a_balance
            token_b_balance acc = Except.error SwapError.ExceededSlippage) ∧
       (res.token_a_amount ≤ maximum_token_a_amount → res.token_a_amount = 0 →
        deposit_core calculator pool_token_amount maximum_token_a_amount
            maximum_token_b_amount pool_mint_supply initial_supply token_a_balance
            token_b_balance acc = Except.error SwapError.ZeroTradingTokens) ∧
       (res.token_a_amount ≤ maximum_token_a_amount → 0 < res.token_a_amount →
        maximum_token_b_amount < res.token_b_amount →
        deposit_core calculator pool_token_amount maximum_token_a_amount
            maximum_token_b_amount pool_mint_supply initial_supply token_a_balance
            token_b_balance acc = Except.error SwapError.ExceededSlippage) ∧
       (res.token_a_amount ≤ maximum_token_a_amount → 0 < res.token_a_amount →
        res.token_b_amount ≤ maximum_token_b_amount → res.token_b_amount = 0 →
        deposit_core calculator pool_token_amount maximum_token_a_amount
            maximum_token_b_amount pool_mint_supply initial_supply token_a_balance
            token_b_balance acc = Except.error SwapError.ZeroTradingTokens) ∧
       (res.token_a_amount ≤ maximum_token_a_amount → 0 < res.token_a_amount →
        res.token_b_amount ≤ maximum_token_b_amount → 0 < res.token_b_amount →
        (if 0 < pool_mint_supply then pool_token_amount else initial_supply) < 2 ^ 64 →
        deposit_core calculator pool_token_amount maximum_token_a_amount
            maximum_token_b_amount pool_mint_supply initial_supply token_a_balance
            token_b_balance acc = Except.ok
          [Effect.transfer acc.source_a_key acc.token_a_key res.token_a_amount,
           Effect.transfer acc.source_b_key acc.token_b_key res.token_b_amount,
           Effect.mintTo acc.pool_mint_key acc.dest_key
             (if 0 < pool_mint_supply then pool_token_amount else initial_supply)])) := by
  intro res hres ha hb
  refine ⟨?_, ?_, ?_, ?_, ?_⟩
  · intro h1
    unfold deposit_core
    simp only [hres, to_u64_lt _ ha]
    rw [if_pos h1]
  · intro h1 h2
    unfold deposit_core
    simp only [hres, to_u64_lt _ ha]
    rw [if_neg (by omega), if_pos h2]
  · intro h1 h2 h3
    unfold deposit_core
    simp only [hres, to_u64_lt _ ha, to_u64_lt _ hb]
    rw [if_neg (by omega), if_neg (by omega), if_pos h3]
  · intro h1 h2 h3 h4
    unfold deposit_core
    simp only [hres, to_u64_lt _ ha, to_u64_lt _ hb]
    rw [if_neg (by omega), if_neg (by omega), if_neg (by omega), if_pos h4]
  · intro h1 h2 h3 h4 h5
    unfold deposit_core
    simp only [hres, to_u64_lt _ ha, to_u64_lt _ hb, to_u64_lt _ h5]
    rw [if_neg (by omega), if_neg (by omega), if_neg (by omega), if_neg (by omega)]

/-- A concrete curve conversion returning 10 units of side A and 20 of
side B, for exercising the deposit core. -/
def dCalc : CurveConvert := fun _ _ _ _ _ => some ⟨10, 20⟩

/-- Concrete deposit account keys. -/
def dAcc : DepositAccounts := ⟨50, 51, 52, 53, 54, 55⟩

/-- Witness for C7: with a nonzero supply of 1000, a request of 50 pool
tokens converting to (10, 20) within the caller's maxima commits the two
transfers and then mints exactly the requested 50. -/
theorem deposit_core_spec_witness :
    deposit_core dCalc 50 10 20 1000 100000 500 500 dAcc =
      Except.ok
        [Effect.transfer 50 52 10, Effect.transfer 51 53 20, Effect.mintTo 54 55 50] :=
  ((deposit_core_spec dCalc 50 10 20 1000 100000 500 500 dAcc ⟨10, 20⟩ rfl (by decide)
    (by decide)).2.2.2.2) (by decide) (by decide) (by decide) (by decide) (by decide)

/-- C2: any withdraw that reaches the burn step burns exactly
`min(requested, supply - MIN_LP_SUPPLY)` (the burn is the first issued
effect), so post-burn pool-share supply never drops below the floor of
100000, and a request of the full supply burns `supply - 100000`,
leaving exactly the floor. -/
theorem withdraw_core_burn_cap (calculator : CurveConvert)
    (pool_token_amount minimum_token_a_amount minimum_token_b_amount : Nat)
    (pool_mint_supply token_a_balance token_b_balance : Nat) (acc : WithdrawAccounts)
    (effects : List Effect)
    (h : withdraw_core calculator pool_token_amount minimum_token_a_amount
        minimum_token_b_amount pool_mint_supply token_a_balance token_b_balance acc =
        Except.ok effects) :
    MIN_LP_SUPPLY ≤ pool_mint_supply ∧
    (∃ rest, effects =
      Effect.burn acc.source_key acc.pool_mint_key
        (min pool_token_amount (pool_mint_supply - MIN_LP_SUPPLY)) :: rest) ∧
    MIN_LP_SUPPLY ≤
      pool_mint_supply - min pool_token_amount (pool_mint_supply - MIN_LP_SUPPLY) ∧
    (pool_token_amount = pool_mint_supply →
      min pool_token_amount (pool_mint_supply - MIN_LP_SUPPLY) =
        pool_mint_supply - MIN_LP_SUPPLY ∧
      pool_mint_supply - (pool_mint_supply - MIN_LP_SUPPLY) = MIN_LP_SUPPLY) := by
  by_cases hle : MIN_LP_SUPPLY ≤ pool_mint_supply
  case neg =>
    exfalso
    unfold withdraw_core checked_sub_u128 at h
    rw [if_neg hle] at h
    cases h
  case pos =>
    unfold withdraw_core at h
    rw [show checked_sub_u128 pool_mint_supply MIN_LP_SUPPLY =
        some (pool_mint_supply - MIN_LP_SUPPLY) from by
      unfold checked_sub_u128
      rw [if_pos hle]] at h
    dsimp only at h
    cases hcal : calculator (min pool_token_amount (pool_mint_supply - MIN_LP_SUPPLY))
        pool_mint_supply token_a_balance token_b_balance RoundDirection.Floor with
    | none =>
      rw [hcal] at h
      cases h
    | some results =>
      rw [hcal] at h
      dsimp only at h
      cases hta : to_u64 results.token_a_amount with
      | none =>
        rw [hta] at h
        cases h
      | some ta =>
        rw [hta] at h
        dsimp only at h
        by_cases hs1 : min token_a_balance ta < minimum_token_a_amount
        · rw [if_pos hs1] at h
          cases h
        rw [if_neg hs1] at h
        by_cases hz1 : min token_a_balance ta = 0 ∧ token_a_balance ≠ 0
        · rw [if_pos hz1] at h
          cases h
        rw [if_neg hz1] at h
        cases htb : to_u64 results.token_b_amount with
        | none =>
          rw [htb] at h
          cases h
        | some tb =>
          rw [htb] at h
          dsimp only at h
          by_cases hs2 : min token_b_balance tb < minimum_token_b_amount
          · rw [if_pos hs2] at h
            cases h
          rw [if_neg hs2] at h
          by_cases hz2 : min token_b_balance tb = 0 ∧ token_b_balance ≠ 0
          · rw [if_pos hz2] at h
            cases h
          rw [if_neg hz2] at h
          cases hbn : to_u64 (min pool_token_amount (pool_mint_supply - MIN_LP_SUPPLY)) with
          | none =>
            rw [hbn] at h
            cases h
          | some burn_amount =>
            rw [hbn] at h
            dsimp only at h
            have hba : burn_amount =
                min pool_token_amount (pool_mint_supply - MIN_LP_SUPPLY) := by
              unfold to_u64 at hbn
              by_cases hfit :
                  min pool_token_amount (pool_mint_supply - MIN_LP_SUPPLY) < 2 ^ 64
              · rw [if_pos hfit] at hbn
                exact (Option.some.inj hbn).symm
              · rw [if_neg hfit] at hbn
                cases hbn
            subst hba
            have heff := (Except.ok.inj h).symm
            exact ⟨hle, ⟨_, heff⟩, by omega, fun hreq => by omega⟩

/-- A concrete curve conversion returning 5 units on each side, for
exercising the withdraw core. -/
def wCalc : CurveConvert := fun _ _ _ _ _ => some ⟨5, 5⟩

/-- Concrete withdraw account keys. -/
def wAcc : WithdrawAccounts := ⟨30, 31, 32, 33, 34, 35⟩

/-- Witness for C2: a successful withdraw of 50 pool tokens from a pool
with supply 100100 leaves the post-burn supply at or above the floor. -/
theorem withdraw_core_burn_cap_witness :
    MIN_LP_SUPPLY ≤ 100100 - min 50 (100100 - MIN_LP_SUPPLY) :=
  (withdraw_core_burn_cap wCalc 50 0 0 100100 1000 1000 wAcc
    [Effect.burn 30 31 50, Effect.transfer 32 34 5, Effect.transfer 33 35 5]
    (by decide)).2.2.1

/-- C10: a withdraw against a pool whose pool-share supply is strictly
below the floor of 100000 fails with the calculation-failure error
(whatever the requested amount), before any burn or transfer is
issued. -/
theorem withdraw_core_low_supply (calculator : CurveConvert)
    (pool_token_amount minimum_token_a_amount minimum_token_b_amount : Nat)
    (pool_mint_supply token_a_balance token_b_balance : Nat) (acc : WithdrawAccounts)
    (h : pool_mint_supply < MIN_LP_SUPPLY) :
    withdraw_core calculator pool_token_amount minimum_token_a_amount
        minimum_token_b_amount pool_mint_supply token_a_balance token_b_balance acc =
      Except.error SwapError.CalculationFailure := by
  unfold withdraw_core checked_sub_u128
  rw [if_neg (by omega)]

/-- Witness for C10: a zero-amount withdraw request against a pool with
supply 99999 (one below the floor) fails with the calculation-failure
error. -/
theorem withdraw_core_low_supply_witness :
    withdraw_core wCalc 0 0 0 99999 1000 1000 wAcc =
      Except.error SwapError.CalculationFailure :=
  withdraw_core_low_supply wCalc 0 0 0 99999 1000 1000 wAcc (by decide)
